import Mathlib

/-!
Verification of the chat-relay backend (`server.py`) against its
natural-language specification.

The development shallowly embeds the program:
  * `clean_ai_response` embeds the regex sanitation pipeline of
    `clean_ai_response` (lines 46-82), one definition per `re.sub` call,
    each a structurally recursive scanner reproducing the corresponding
    Python regex-substitution semantics (lazy groups, MULTILINE anchors,
    greedy whitespace classes, left-to-right non-overlapping scan).
  * `chat` embeds the `POST /chat` handler (lines 97-141): the session
    dictionary becomes an association list, the provider call an
    `Except String String` parameter, the generated UUID a parameter, and
    the surrounding `try/except` the explicit error branches.
-/

set_option maxRecDepth 20000

namespace MadiParts

/-- The characters CPython treats as whitespace — one and the same set
(`Py_UNICODE_ISSPACE`) for `str.strip()`, `str.isspace()` and the regex
class `\s` on `str` patterns, verified by exhaustive comparison of the
three over every codepoint on the interpreter this program runs under:
the codepoint ranges 09-0D, 1C-20, 85, A0, 1680, 2000-200A, 2028-2029,
202F, 205F and 3000. -/
def isPySpace (c : Char) : Bool :=
  let n := c.toNat
  (0x09 ≤ n && n ≤ 0x0d) || (0x1c ≤ n && n ≤ 0x20) ||
  n == 0x85 || n == 0xa0 || n == 0x1680 ||
  (0x2000 ≤ n && n ≤ 0x200a) || n == 0x2028 || n == 0x2029 ||
  n == 0x202f || n == 0x205f || n == 0x3000

/-- The characters CPython's regex class `\d` matches on `str` patterns:
the Unicode decimal digits (category Nd, equal to `str.isdecimal()`),
as the codepoint ranges extracted by enumerating every codepoint against
`\d` on the interpreter this program runs under. -/
def isPyDigit (c : Char) : Bool :=
  let n := c.toNat
  (0x30 ≤ n && n ≤ 0x39) || (0x660 ≤ n && n ≤ 0x669) || (0x6f0 ≤ n && n ≤ 0x6f9) ||
  (0x7c0 ≤ n && n ≤ 0x7c9) || (0x966 ≤ n && n ≤ 0x96f) || (0x9e6 ≤ n && n ≤ 0x9ef) ||
  (0xa66 ≤ n && n ≤ 0xa6f) || (0xae6 ≤ n && n ≤ 0xaef) || (0xb66 ≤ n && n ≤ 0xb6f) ||
  (0xbe6 ≤ n && n ≤ 0xbef) || (0xc66 ≤ n && n ≤ 0xc6f) || (0xce6 ≤ n && n ≤ 0xcef) ||
  (0xd66 ≤ n && n ≤ 0xd6f) || (0xde6 ≤ n && n ≤ 0xdef) || (0xe50 ≤ n && n ≤ 0xe59) ||
  (0xed0 ≤ n && n ≤ 0xed9) || (0xf20 ≤ n && n ≤ 0xf29) || (0x1040 ≤ n && n ≤ 0x1049) ||
  (0x1090 ≤ n && n ≤ 0x1099) || (0x17e0 ≤ n && n ≤ 0x17e9) || (0x1810 ≤ n && n ≤ 0x1819) ||
  (0x1946 ≤ n && n ≤ 0x194f) || (0x19d0 ≤ n && n ≤ 0x19d9) || (0x1a80 ≤ n && n ≤ 0x1a89) ||
  (0x1a90 ≤ n && n ≤ 0x1a99) || (0x1b50 ≤ n && n ≤ 0x1b59) || (0x1bb0 ≤ n && n ≤ 0x1bb9) ||
  (0x1c40 ≤ n && n ≤ 0x1c49) || (0x1c50 ≤ n && n ≤ 0x1c59) || (0xa620 ≤ n && n ≤ 0xa629) ||
  (0xa8d0 ≤ n && n ≤ 0xa8d9) || (0xa900 ≤ n && n ≤ 0xa909) || (0xa9d0 ≤ n && n ≤ 0xa9d9) ||
  (0xa9f0 ≤ n && n ≤ 0xa9f9) || (0xaa50 ≤ n && n ≤ 0xaa59) || (0xabf0 ≤ n && n ≤ 0xabf9) ||
  (0xff10 ≤ n && n ≤ 0xff19) || (0x104a0 ≤ n && n ≤ 0x104a9) || (0x10d30 ≤ n && n ≤ 0x10d39) ||
  (0x11066 ≤ n && n ≤ 0x1106f) || (0x110f0 ≤ n && n ≤ 0x110f9) || (0x11136 ≤ n && n ≤ 0x1113f) ||
  (0x111d0 ≤ n && n ≤ 0x111d9) || (0x112f0 ≤ n && n ≤ 0x112f9) || (0x11450 ≤ n && n ≤ 0x11459) ||
  (0x114d0 ≤ n && n ≤ 0x114d9) || (0x11650 ≤ n && n ≤ 0x11659) || (0x116c0 ≤ n && n ≤ 0x116c9) ||
  (0x11730 ≤ n && n ≤ 0x11739) || (0x118e0 ≤ n && n ≤ 0x118e9) || (0x11950 ≤ n && n ≤ 0x11959) ||
  (0x11c50 ≤ n && n ≤ 0x11c59) || (0x11d50 ≤ n && n ≤ 0x11d59) || (0x11da0 ≤ n && n ≤ 0x11da9) ||
  (0x16a60 ≤ n && n ≤ 0x16a69) || (0x16ac0 ≤ n && n ≤ 0x16ac9) || (0x16b50 ≤ n && n ≤ 0x16b59) ||
  (0x1d7ce ≤ n && n ≤ 0x1d7ff) || (0x1e140 ≤ n && n ≤ 0x1e149) || (0x1e2f0 ≤ n && n ≤ 0x1e2f9) ||
  (0x1e950 ≤ n && n ≤ 0x1e959) || (0x1fbf0 ≤ n && n ≤ 0x1fbf9)

/-- `str.strip()` on a character list: drop whitespace at both ends. -/
def stripList (l : List Char) : List Char :=
  ((l.dropWhile isPySpace).reverse.dropWhile isPySpace).reverse

/-- Python `str.strip()`. -/
def pyStrip (s : String) : String :=
  String.mk (stripList s.toList)

/-!
### `re.sub(r'd(.*?)d', r'\1', text)` for a single-character delimiter `d`

Used for `\*(.*?)\*`, `_(.*?)_` and a backtick pair (lines 55-57).
State `some buf`: an opening delimiter has been seen and `buf` is the
(reversed) lazily accumulated group, which by construction contains
neither `d` nor a newline (`.` does not match `\n`).  When the close is
found the group replaces the whole match; when a newline or the end of
input is reached the attempt fails and, since the buffer can contain no
further match, all buffered characters are emitted literally.
`d` is never instantiated with a newline. -/
def subPair1Aux (d : Char) : Option (List Char) → List Char → List Char
  | none, [] => []
  | some buf, [] => d :: buf.reverse
  | none, c :: rest =>
    if c = d then subPair1Aux d (some []) rest
    else c :: subPair1Aux d none rest
  | some buf, c :: rest =>
    if c = d then buf.reverse ++ subPair1Aux d none rest
    else if c = '\n' then d :: (buf.reverse ++ c :: subPair1Aux d none rest)
    else subPair1Aux d (some (c :: buf)) rest

def subPair1 (d : Char) (l : List Char) : List Char :=
  subPair1Aux d none l

/-!
### `re.sub(r'dd(.*?)dd', r'\1', text)` for a doubled delimiter `dd`

Used for `\*\*(.*?)\*\*` and `~~(.*?)~~` (lines 54 and 58).  As above, but
the opener and closer are two consecutive copies of `d`; the lazily
accumulated group can contain isolated copies of `d` but never two in a
row.  On failure (newline or end of input) no match can start inside
`d :: buf`, so everything is emitted literally and scanning resumes. -/
def subPair2Aux (d : Char) : Option (List Char) → List Char → List Char
  | none, [] => []
  | some buf, [] => d :: d :: buf.reverse
  | none, [c] => [c]
  | some buf, [c] => d :: d :: (buf.reverse ++ [c])
  | none, c1 :: c2 :: rest =>
    if c1 = d ∧ c2 = d then subPair2Aux d (some []) rest
    else c1 :: subPair2Aux d none (c2 :: rest)
  | some buf, c1 :: c2 :: rest =>
    if c1 = d ∧ c2 = d then buf.reverse ++ subPair2Aux d none rest
    else if c1 = '\n' then d :: d :: (buf.reverse ++ c1 :: subPair2Aux d none (c2 :: rest))
    else subPair2Aux d (some (c1 :: buf)) (c2 :: rest)

def subPair2 (d : Char) (l : List Char) : List Char :=
  subPair2Aux d none l

/-!
### `re.sub(r'^#+\s+', '', text, flags=re.MULTILINE)` (line 61)

A scanner over the input; the state records whether the current position
is a line start (position 0 or preceded by a newline), a pending run of
`#` characters after a line start, or the greedy `\s+` tail of a
successful match (whose last character determines whether the position
after the match is again a line start). -/
inductive HeadSt where
  | scan (bol : Bool)
  | hashes (n : Nat)
  | wsrun (lastNl : Bool)

def subHeadAux : HeadSt → List Char → List Char
  | .scan _, [] => []
  | .hashes n, [] => List.replicate n '#'
  | .wsrun _, [] => []
  | .scan true, c :: rest =>
    if c = '#' then subHeadAux (.hashes 1) rest
    else c :: subHeadAux (.scan (c = '\n')) rest
  | .scan false, c :: rest => c :: subHeadAux (.scan (c = '\n')) rest
  | .hashes n, c :: rest =>
    if c = '#' then subHeadAux (.hashes (n + 1)) rest
    else if isPySpace c then subHeadAux (.wsrun (c = '\n')) rest
    else List.replicate n '#' ++ c :: subHeadAux (.scan (c = '\n')) rest
  | .wsrun ln, c :: rest =>
    if isPySpace c then subHeadAux (.wsrun (c = '\n')) rest
    else if ln ∧ c = '#' then subHeadAux (.hashes 1) rest
    else c :: subHeadAux (.scan (c = '\n')) rest

def subHeading (l : List Char) : List Char :=
  subHeadAux (.scan true) l

/-- `re.sub(r'^>\s+', '', text, flags=re.MULTILINE)` (line 64). -/
inductive QuoteSt where
  | scan (bol : Bool)
  | afterGt
  | wsrun (lastNl : Bool)

def subQuoteAux : QuoteSt → List Char → List Char
  | .scan _, [] => []
  | .afterGt, [] => ['>']
  | .wsrun _, [] => []
  | .scan true, c :: rest =>
    if c = '>' then subQuoteAux .afterGt rest
    else c :: subQuoteAux (.scan (c = '\n')) rest
  | .scan false, c :: rest => c :: subQuoteAux (.scan (c = '\n')) rest
  | .afterGt, c :: rest =>
    if isPySpace c then subQuoteAux (.wsrun (c = '\n')) rest
    else '>' :: c :: subQuoteAux (.scan (c = '\n')) rest
  | .wsrun ln, c :: rest =>
    if isPySpace c then subQuoteAux (.wsrun (c = '\n')) rest
    else if ln ∧ c = '>' then subQuoteAux .afterGt rest
    else c :: subQuoteAux (.scan (c = '\n')) rest

def subQuote (l : List Char) : List Char :=
  subQuoteAux (.scan true) l

/-- The bullet characters of the class `[-*•]` in line 67. -/
def isBullet (c : Char) : Bool :=
  c = '-' || c = '*' || c = '•'

/-!
### `re.sub(r'^[\s]*[-*•]\s+', '', text, flags=re.MULTILINE)` (line 67)

State `ws buf`: from a line start, `buf` is the (reversed) whitespace
matched greedily by `[\s]*` — it may span newlines.  A failed attempt
(no bullet after the whitespace, or no whitespace after the bullet)
emits the buffered characters literally; retries at the line starts
inside the buffer fail for the same reason, so the scanner resumes after
the failing character. -/
inductive BulSt where
  | scan (bol : Bool)
  | ws (buf : List Char)
  | afterB (buf : List Char) (b : Char)
  | wsrun (lastNl : Bool)

def subBulletAux : BulSt → List Char → List Char
  | .scan _, [] => []
  | .ws buf, [] => buf.reverse
  | .afterB buf b, [] => buf.reverse ++ [b]
  | .wsrun _, [] => []
  | .scan true, c :: rest =>
    if isPySpace c then subBulletAux (.ws [c]) rest
    else if isBullet c then subBulletAux (.afterB [] c) rest
    else c :: subBulletAux (.scan (c = '\n')) rest
  | .scan false, c :: rest => c :: subBulletAux (.scan (c = '\n')) rest
  | .ws buf, c :: rest =>
    if isPySpace c then subBulletAux (.ws (c :: buf)) rest
    else if isBullet c then subBulletAux (.afterB buf c) rest
    else buf.reverse ++ c :: subBulletAux (.scan (c = '\n')) rest
  | .afterB buf b, c :: rest =>
    if isPySpace c then subBulletAux (.wsrun (c = '\n')) rest
    else buf.reverse ++ b :: c :: subBulletAux (.scan (c = '\n')) rest
  | .wsrun ln, c :: rest =>
    if isPySpace c then subBulletAux (.wsrun (c = '\n')) rest
    else if ln ∧ isBullet c then subBulletAux (.afterB [] c) rest
    else c :: subBulletAux (.scan (c = '\n')) rest

def subBullet (l : List Char) : List Char :=
  subBulletAux (.scan true) l

/-!
### `re.sub(r'^[\s]*\d+\.\s+', '', text, flags=re.MULTILINE)` (line 68)

As for bullets, with the bullet token replaced by `\d+\.`; `digs` holds
the (reversed) digit run and `dot` awaits the mandatory whitespace after
the period. -/
inductive OrdSt where
  | scan (bol : Bool)
  | ws (buf : List Char)
  | digs (buf : List Char) (ds : List Char)
  | dot (buf : List Char) (ds : List Char)
  | wsrun (lastNl : Bool)

def subOrderedAux : OrdSt → List Char → List Char
  | .scan _, [] => []
  | .ws buf, [] => buf.reverse
  | .digs buf ds, [] => buf.reverse ++ ds.reverse
  | .dot buf ds, [] => buf.reverse ++ ds.reverse ++ ['.']
  | .wsrun _, [] => []
  | .scan true, c :: rest =>
    if isPySpace c then subOrderedAux (.ws [c]) rest
    else if isPyDigit c then subOrderedAux (.digs [] [c]) rest
    else c :: subOrderedAux (.scan (c = '\n')) rest
  | .scan false, c :: rest => c :: subOrderedAux (.scan (c = '\n')) rest
  | .ws buf, c :: rest =>
    if isPySpace c then subOrderedAux (.ws (c :: buf)) rest
    else if isPyDigit c then subOrderedAux (.digs buf [c]) rest
    else buf.reverse ++ c :: subOrderedAux (.scan (c = '\n')) rest
  | .digs buf ds, c :: rest =>
    if isPyDigit c then subOrderedAux (.digs buf (c :: ds)) rest
    else if c = '.' then subOrderedAux (.dot buf ds) rest
    else buf.reverse ++ ds.reverse ++ c :: subOrderedAux (.scan (c = '\n')) rest
  | .dot buf ds, c :: rest =>
    if isPySpace c then subOrderedAux (.wsrun (c = '\n')) rest
    else buf.reverse ++ ds.reverse ++ '.' :: c :: subOrderedAux (.scan (c = '\n')) rest
  | .wsrun ln, c :: rest =>
    if isPySpace c then subOrderedAux (.wsrun (c = '\n')) rest
    else if ln ∧ isPyDigit c then subOrderedAux (.digs [] [c]) rest
    else c :: subOrderedAux (.scan (c = '\n')) rest

def subOrdered (l : List Char) : List Char :=
  subOrderedAux (.scan true) l

/-!
### `re.sub(r'd{n,}', '', text)` (lines 71-73)

A greedy bounded-repetition class deletes every maximal run of `d` whose
length is at least `n`; shorter runs are kept. -/
def flushRun (d : Char) (n cnt : Nat) : List Char :=
  if n ≤ cnt then [] else List.replicate cnt d

def subRunAux (d : Char) (n : Nat) : Nat → List Char → List Char
  | cnt, [] => flushRun d n cnt
  | cnt, c :: rest =>
    if c = d then subRunAux d n (cnt + 1) rest
    else flushRun d n cnt ++ c :: subRunAux d n 0 rest

def subRun (d : Char) (n : Nat) (l : List Char) : List Char :=
  subRunAux d n 0 l

/-- Lines 71-73 in source order: `─{3,}`, then `═{3,}`, then `─{2,}`
(the third pattern repeats the box-drawing dash U+2500, not the ASCII
hyphen). -/
def removeSeparators (l : List Char) : List Char :=
  subRun '─' 2 (subRun '═' 3 (subRun '─' 3 l))

/-!
### `re.sub(r'\n\s*\n\s*\n', '\n\n', text)` (line 76)

By greedy matching with backtracking, in every maximal whitespace run
containing at least three newlines the leftmost match starts at the
run's first newline and ends at its last newline; the replacement keeps
exactly two newlines (plus the run's non-newline fringes). -/
def lastSegment (w : List Char) : List Char :=
  (w.reverse.takeWhile (fun c => ¬ c = '\n')).reverse

def collapseRun (w : List Char) : List Char :=
  if 3 ≤ (w.filter (fun c => c = '\n')).length then
    (w.takeWhile (fun c => ¬ c = '\n')) ++ '\n' :: '\n' :: lastSegment w
  else w

def subBlankAux (acc : List Char) : List Char → List Char
  | [] => collapseRun acc.reverse
  | c :: rest =>
    if isPySpace c then subBlankAux (c :: acc) rest
    else collapseRun acc.reverse ++ c :: subBlankAux [] rest

def subBlank (l : List Char) : List Char :=
  subBlankAux [] l

/-- `re.sub(r'[ \t]+', ' ', text)` (line 77): collapse each maximal run
of spaces and tabs to one space. -/
def subHorizAux (inRun : Bool) : List Char → List Char
  | [] => []
  | c :: rest =>
    if c = ' ' ∨ c = '\t' then
      if inRun then subHorizAux true rest else ' ' :: subHorizAux true rest
    else c :: subHorizAux false rest

def subHoriz (l : List Char) : List Char :=
  subHorizAux false l

/-- `clean_ai_response` (lines 46-82): the full sanitation pipeline, in
source order. -/
def clean_ai_response (text : String) : String :=
  if text = "" then ""
  else
    String.mk
      (stripList
        (subHoriz
          (subBlank
            (removeSeparators
              (subOrdered
                (subBullet
                  (subQuote
                    (subHeading
                      (subPair2 '~'
                        (subPair1 '`'
                          (subPair1 '_'
                            (subPair1 '*'
                              (subPair2 '*' text.toList)))))))))))))

/-!
## The `POST /chat` handler (lines 97-141) and its state
-/

/-- One entry of a session history: `{"role": ..., "content": ...}`. -/
structure Message where
  role : String
  content : String
deriving DecidableEq, Repr

/-- The process-wide dictionary `sessions = {}` (line 37), as an
association list in insertion order. -/
abbrev Store := List (String × List Message)

/-- Dictionary lookup `sessions[session_id]` / membership test. -/
def storeGet? : Store → String → Option (List Message)
  | [], _ => none
  | (k, v) :: rest, id => if k = id then some v else storeGet? rest id

/-- Dictionary write `sessions[session_id] = h` (overwrites in place, or
appends a fresh key at the end, as a Python dict does). -/
def storeSet : Store → String → List Message → Store
  | [], id, h => [(id, h)]
  | (k, v) :: rest, id, h =>
    if k = id then (k, h) :: rest else (k, v) :: storeSet rest id h

/-- The constant `SYSTEM_PROMPT` (lines 39-44), transcribed exactly
(including the surrounding newlines of the triple-quoted literal). -/
def SYSTEM_PROMPT : String :=
  "\nтебе будут поступать запросы по автозапчастям и в целом проблемам с автомобилями, твоя задача давать реальные заменители запчастей и в целом на любые вопросы отвечать как лучший эксперт в автомобильной сфере(используй все свои знания).  \nтакже твоей задача - давать советы по удешевлению ремонта, и, если возможно решить проблему с применением работы своими руками, тоже давай информацию по этому поводу. используй свои знания по максимуму. \nВАЖНО: НЕ ДАВАЙ КЛИКАБЕЛЬНЫЕ ССЫЛКИ В СВОЕМ ОТВЕТЕ, ДАВАЙ ТОЛЬКО ТЕКСТ, НЕ ВЫДУМЫВАЙ САМИ ИНТЕРНЕТ ССЫЛКИ. также постарайся если это возможно дать совет как решить проблему своими руками\nВАЖНО: Используй обычный текст без Markdown форматирования. Не используй **жирный**, *курсив*, ### заголовки, > цитаты, маркированные списки с -, *, •.\n"

/-- The fixed remediation string of the 500 response body (line 140);
in English: check the API key and the Yandex Cloud settings. -/
def REMEDIATION_DETAIL : String :=
  "Проверьте API ключ и настройки Yandex Cloud"

/-- The environment configuration read at startup (lines 22-24); the
process refuses to start when `FOLDER_ID` or `API_KEY` is missing
(lines 27-28), so both are plain strings here. -/
structure Config where
  FOLDER_ID : String
  API_KEY : String
  MODEL : String

/-- A JSON value in the `message` field of the request body.  Only a
string is stripped successfully; every other shape makes `.strip()`
raise `AttributeError` inside the `try` block. -/
inductive JVal where
  | jstr (s : String)
  | jnum (n : Int)
  | jbool (b : Bool)
  | jnull
  | jarr
  | jobj
deriving DecidableEq, Repr

/-- The Python type name of the value, as it appears in the
`AttributeError` message. -/
def JVal.pyTypeName : JVal → String
  | .jstr _ => "str"
  | .jnum _ => "int"
  | .jbool _ => "bool"
  | .jnull => "NoneType"
  | .jarr => "list"
  | .jobj => "dict"

/-- `data.get("message", "").strip()` (line 101): stripping a string
succeeds; any non-string raises `AttributeError` (there is no type
check), whose `str(e)` is the usual CPython message. -/
def jvalStrip : JVal → Except String String
  | .jstr s => .ok (pyStrip s)
  | v => .error ("\x27" ++ v.pyTypeName ++ "\x27 object has no attribute \x27strip\x27")

/-- The keyword payload of `client.responses.create(...)` (lines 115-121).
`temperature` is the exact literal `0.6` (as a rational; no arithmetic is
ever performed on it). -/
structure ProviderRequest where
  model : String
  temperature : ℚ
  max_output_tokens : Nat
  instructions : String
  input : List Message
deriving DecidableEq, Repr

/-- Lines 115-121: the request the handler sends to the provider. -/
def buildRequest (cfg : Config) (message : String) : ProviderRequest :=
  ⟨"gpt://" ++ cfg.FOLDER_ID ++ "/" ++ cfg.MODEL,
   0.6, 2500, SYSTEM_PROMPT, [⟨"user", message⟩]⟩

/-- The three response shapes of the handler. -/
inductive ChatResult where
  | ok (reply : String) (session_id : String)
  | badRequest (error : String)
  | serverError (error : String) (detail : String)
deriving DecidableEq, Repr

/-- The HTTP status code carried by each response shape: 200 for the
success body, 400 for the validation rejection (line 105), 500 for the
catch-all branch (line 139). -/
def ChatResult.status : ChatResult → Nat
  | .ok _ _ => 200
  | .badRequest _ => 400
  | .serverError _ _ => 500

/-- Everything observable about one `POST /chat` call: the response, the
session store afterwards, and the outbound provider request (if the
provider call was reached). -/
structure ChatOutcome where
  result : ChatResult
  sessions : Store
  sent : Option ProviderRequest
deriving DecidableEq, Repr

/-- The `POST /chat` handler (lines 97-141).

Inputs beyond the request body: `fresh_uuid` stands for `str(uuid.uuid4())`
(line 102), `provider` for the outcome of `client.responses.create` —
`.ok t` when the call returns and `t` is `response.output_text`, `.error e`
when it raises an exception with `str(e) = e`.  The branches mirror the
source: a non-string `message` raises at `.strip()` and is caught by the
`except` clause before any session is touched; an empty trimmed message
returns 400; otherwise the session is created if unseen (lines 108-109),
the user message is appended (line 112), the provider is called, and on
success the stripped, sanitized reply is appended and returned — a
provider exception is caught with the session already holding the user
message. -/
def chat (cfg : Config) (data_message : Option JVal) (data_session_id : Option String)
    (fresh_uuid : String) (provider : Except String String) (sessions : Store) :
    ChatOutcome :=
  match jvalStrip (data_message.getD (.jstr (""))) with
  | .error e => ⟨.serverError e REMEDIATION_DETAIL, sessions, none⟩
  | .ok message =>
    let session_id := data_session_id.getD fresh_uuid
    if message = "" then ⟨.badRequest ("empty message"), sessions, none⟩
    else
      let sessions1 :=
        if (storeGet? sessions session_id).isSome then sessions
        else storeSet sessions session_id [⟨"system", SYSTEM_PROMPT⟩]
      let sessions2 := storeSet sessions1 session_id
        ((storeGet? sessions1 session_id).getD [] ++ [⟨"user", message⟩])
      let req := buildRequest cfg message
      match provider with
      | .error e => ⟨.serverError e REMEDIATION_DETAIL, sessions2, some req⟩
      | .ok output_text =>
        let cleaned_reply := clean_ai_response (pyStrip output_text)
        let sessions3 := storeSet sessions2 session_id
          ((storeGet? sessions2 session_id).getD [] ++ [⟨"assistant", cleaned_reply⟩])
        ⟨.ok cleaned_reply session_id, sessions3, some req⟩

/-- `GET /health` (lines 92-94). -/
def health_check (cfg : Config) : String × String × Nat :=
  ("healthy", cfg.MODEL, 200)

/-- A well-formed session history: it starts with the fixed system
message and no later entry carries the system role. -/
def goodHistory (h : List Message) : Prop :=
  ∃ rest, h = ⟨"system", SYSTEM_PROMPT⟩ :: rest ∧ ∀ m ∈ rest, m.role ≠ "system"

/-- The session stores reachable from process start (`sessions = {}`)
by any sequence of `POST /chat` requests, with arbitrary bodies, fresh
UUIDs and provider outcomes. -/
inductive Reachable : Store → Prop where
  | init : Reachable []
  | step (cfg : Config) (mf : Option JVal) (sid : Option String) (fresh : String)
      (provider : Except String String) {s : Store} :
      Reachable s → Reachable (chat cfg mf sid fresh provider s).sessions

/-! ## Dictionary lemmas -/

theorem storeGet?_storeSet_self (s : Store) (id : String) (h : List Message) :
    storeGet? (storeSet s id h) id = some h := by
  induction s with
  | nil => simp [storeSet, storeGet?]
  | cons kv rest ih =>
    obtain ⟨k, v⟩ := kv
    by_cases hk : k = id
    · simp [storeSet, storeGet?, hk]
    · simp [storeSet, storeGet?, hk, ih]

theorem storeGet?_storeSet_ne (s : Store) (id id' : String) (h : List Message)
    (hne : id' ≠ id) : storeGet? (storeSet s id h) id' = storeGet? s id' := by
  have hni : ¬ id = id' := fun hc => hne hc.symm
  induction s with
  | nil => simp [storeSet, storeGet?, hni]
  | cons kv rest ih =>
    obtain ⟨k, v⟩ := kv
    by_cases hk : k = id
    · subst hk
      simp [storeSet, storeGet?, hni]
    · simp only [storeSet, if_neg hk]
      by_cases hk' : k = id'
      · simp [storeGet?, hk']
      · simp [storeGet?, hk', ih]

theorem storeSet_storeSet_self (s : Store) (id : String) (h h' : List Message) :
    storeSet (storeSet s id h) id h' = storeSet s id h' := by
  induction s with
  | nil => simp [storeSet]
  | cons kv rest ih =>
    obtain ⟨k, v⟩ := kv
    by_cases hk : k = id
    · simp [storeSet, hk]
    · simp [storeSet, hk, ih]

/-! ## Shape of the handler's outcome on each control path -/

/-- On the fully successful path (string message, non-empty after
trimming, provider returns), the whole observable outcome of `chat`. -/
theorem chat_ok_shape (cfg : Config) (m : String) (sid? : Option String)
    (fresh out : String) (s : Store) (hm : pyStrip m ≠ "") :
    chat cfg (some (.jstr m)) sid? fresh (.ok out) s =
      ⟨.ok (clean_ai_response (pyStrip out)) (sid?.getD fresh),
       storeSet s (sid?.getD fresh)
         (((storeGet? s (sid?.getD fresh)).getD [⟨"system", SYSTEM_PROMPT⟩])
           ++ [⟨"user", pyStrip m⟩,
               ⟨"assistant", clean_ai_response (pyStrip out)⟩]),
       some (buildRequest cfg (pyStrip m))⟩ := by
  by_cases hs : (storeGet? s (sid?.getD fresh)).isSome
  · obtain ⟨h, hh⟩ := Option.isSome_iff_exists.mp hs
    simp [chat, jvalStrip, hm, hh, storeGet?_storeSet_self, storeSet_storeSet_self]
  · have hn : storeGet? s (sid?.getD fresh) = none := Option.not_isSome_iff_eq_none.mp hs
    simp [chat, jvalStrip, hm, hn, storeGet?_storeSet_self, storeSet_storeSet_self]

/-- On the provider-failure path, the whole observable outcome of
`chat`: the 500 body, the session ending in the dangling user message,
and the request that was attempted. -/
theorem chat_provider_error_shape (cfg : Config) (m : String) (sid? : Option String)
    (fresh e : String) (s : Store) (hm : pyStrip m ≠ "") :
    chat cfg (some (.jstr m)) sid? fresh (.error e) s =
      ⟨.serverError e REMEDIATION_DETAIL,
       storeSet s (sid?.getD fresh)
         (((storeGet? s (sid?.getD fresh)).getD [⟨"system", SYSTEM_PROMPT⟩])
           ++ [⟨"user", pyStrip m⟩]),
       some (buildRequest cfg (pyStrip m))⟩ := by
  by_cases hs : (storeGet? s (sid?.getD fresh)).isSome
  · obtain ⟨h, hh⟩ := Option.isSome_iff_exists.mp hs
    simp [chat, jvalStrip, hm, hh, storeGet?_storeSet_self, storeSet_storeSet_self]
  · have hn : storeGet? s (sid?.getD fresh) = none := Option.not_isSome_iff_eq_none.mp hs
    simp [chat, jvalStrip, hm, hn, storeGet?_storeSet_self, storeSet_storeSet_self]

/-- On the validation-failure path (message missing, or a string that
trims to empty), the whole observable outcome of `chat`: a 400 body and
an untouched store. -/
theorem chat_empty_shape (cfg : Config) (mf : Option JVal) (sid? : Option String)
    (fresh : String) (provider : Except String String) (s : Store)
    (hm : mf = none ∨ ∃ m, mf = some (.jstr m) ∧ pyStrip m = "") :
    chat cfg mf sid? fresh provider s =
      ⟨.badRequest ("empty message"), s, none⟩ := by
  rcases hm with hm | ⟨m, hmf, hm⟩
  · subst hm
    have : pyStrip "" = "" := rfl
    simp [chat, jvalStrip, this]
  · subst hmf
    simp [chat, jvalStrip, hm]

/-- On the non-string-message path, the whole observable outcome of
`chat`: the `AttributeError` is caught by the blanket `except` and
surfaced as the 500 body; no session is touched and no provider call is
made. -/
theorem chat_nonstring_shape (cfg : Config) (v : JVal) (sid? : Option String)
    (fresh : String) (provider : Except String String) (s : Store)
    (hv : ∀ m, v ≠ .jstr m) :
    chat cfg (some v) sid? fresh provider s =
      ⟨.serverError ("\x27" ++ v.pyTypeName ++ "\x27 object has no attribute \x27strip\x27")
         REMEDIATION_DETAIL, s, none⟩ := by
  cases v with
  | jstr m => exact absurd rfl (hv m)
  | jnum n => simp [chat, jvalStrip, JVal.pyTypeName]
  | jbool b => simp [chat, jvalStrip, JVal.pyTypeName]
  | jnull => simp [chat, jvalStrip, JVal.pyTypeName]
  | jarr => simp [chat, jvalStrip, JVal.pyTypeName]
  | jobj => simp [chat, jvalStrip, JVal.pyTypeName]

/-- Appending non-system messages preserves well-formedness of a
history. -/
theorem goodHistory_append (h tail : List Message) (hg : goodHistory h)
    (ht : ∀ x ∈ tail, Message.role x ≠ "system") : goodHistory (h ++ tail) := by
  obtain ⟨rest, rfl, hr⟩ := hg
  refine ⟨rest ++ tail, rfl, ?_⟩
  intro x hx
  rcases List.mem_append.mp hx with hx | hx
  · exact hr x hx
  · exact ht x hx

/-- Whatever the request, a `POST /chat` call either leaves the store
untouched or rewrites exactly one key with its previous history (the
freshly created `[system]` history when the key was unseen) extended by
user/assistant messages only. -/
theorem chat_sessions_shape (cfg : Config) (mf : Option JVal) (sid? : Option String)
    (fresh : String) (provider : Except String String) (s : Store) :
    (chat cfg mf sid? fresh provider s).sessions = s ∨
    ∃ id tail, (∀ x ∈ tail, Message.role x ≠ "system") ∧
      (chat cfg mf sid? fresh provider s).sessions =
        storeSet s id (((storeGet? s id).getD [⟨"system", SYSTEM_PROMPT⟩]) ++ tail) := by
  rcases hjv : jvalStrip (mf.getD (.jstr (""))) with e | message
  · left
    simp [chat, hjv]
  · by_cases hmsg : message = ""
    · left
      simp [chat, hjv, hmsg]
    · right
      refine ⟨sid?.getD fresh, ?_⟩
      rcases provider with e | out
      · refine ⟨[⟨"user", message⟩], ?_, ?_⟩
        · intro x hx
          simp at hx
          subst hx
          simp [Message.role]
        · by_cases hs : (storeGet? s (sid?.getD fresh)).isSome
          · obtain ⟨h, hh⟩ := Option.isSome_iff_exists.mp hs
            simp [chat, hjv, hmsg, hh, storeGet?_storeSet_self, storeSet_storeSet_self]
          · have hn : storeGet? s (sid?.getD fresh) = none :=
              Option.not_isSome_iff_eq_none.mp hs
            simp [chat, hjv, hmsg, hn, storeGet?_storeSet_self, storeSet_storeSet_self]
      · refine ⟨[⟨"user", message⟩,
          ⟨"assistant", clean_ai_response (pyStrip out)⟩], ?_, ?_⟩
        · intro x hx
          simp at hx
          rcases hx with hx | hx <;> subst hx <;> simp [Message.role]
        · by_cases hs : (storeGet? s (sid?.getD fresh)).isSome
          · obtain ⟨h, hh⟩ := Option.isSome_iff_exists.mp hs
            simp [chat, hjv, hmsg, hh, storeGet?_storeSet_self, storeSet_storeSet_self]
          · have hn : storeGet? s (sid?.getD fresh) = none :=
              Option.not_isSome_iff_eq_none.mp hs
            simp [chat, hjv, hmsg, hn, storeGet?_storeSet_self, storeSet_storeSet_self]

/-! ## The claims -/

/-- C1: for every `POST /chat` request whose message is a string that is
non-empty after trimming and whose provider call succeeds, the handler
returns status 200 with the sanitized provider text as `reply` and the
used id as `session_id` — the caller-supplied id when present
(`sid? = some given`), the freshly generated UUID otherwise — and that
session's history becomes its previous history (the new `[system]`
history when the id was unseen) with exactly one user message (the
trimmed input) followed by exactly one assistant message (the sanitized
reply) appended, in call order. -/
theorem C1_success_response_and_history (cfg : Config) (m : String)
    (sid? : Option String) (fresh out : String) (s : Store)
    (hm : pyStrip m ≠ "") :
    (chat cfg (some (.jstr m)) sid? fresh (.ok out) s).result =
      .ok (clean_ai_response (pyStrip out)) (sid?.getD fresh) ∧
    ((chat cfg (some (.jstr m)) sid? fresh (.ok out) s).result).status = 200 ∧
    storeGet? (chat cfg (some (.jstr m)) sid? fresh (.ok out) s).sessions
        (sid?.getD fresh) =
      some (((storeGet? s (sid?.getD fresh)).getD [⟨"system", SYSTEM_PROMPT⟩])
        ++ [⟨"user", pyStrip m⟩, ⟨"assistant", clean_ai_response (pyStrip out)⟩]) := by
  rw [chat_ok_shape cfg m sid? fresh out s hm]
  exact ⟨rfl, rfl, storeGet?_storeSet_self _ _ _⟩

/-- Witness for C1: a concrete successful call on an empty store with a
caller-supplied session id and a message fringed by a no-break space and
an ASCII space (both stripped by Python, so the stored user content is
`"hi"`). -/
theorem C1_success_response_and_history_witness :
    pyStrip ("\xa0hi ") ≠ "" ∧
    ((chat ⟨"f", "k", "mod"⟩ (some (.jstr ("\xa0hi "))) (some ("s")) ("u")
        (.ok (" ok ")) []).result =
      .ok (clean_ai_response (pyStrip (" ok "))) ((some ("s")).getD ("u")) ∧
    ((chat ⟨"f", "k", "mod"⟩ (some (.jstr ("\xa0hi "))) (some ("s")) ("u")
        (.ok (" ok ")) []).result).status = 200 ∧
    storeGet? (chat ⟨"f", "k", "mod"⟩ (some (.jstr ("\xa0hi "))) (some ("s")) ("u")
        (.ok (" ok ")) []).sessions ((some ("s")).getD ("u")) =
      some (((storeGet? ([] : Store) ((some ("s")).getD ("u"))).getD
          [⟨"system", SYSTEM_PROMPT⟩])
        ++ [⟨"user", pyStrip ("\xa0hi ")⟩,
            ⟨"assistant", clean_ai_response (pyStrip (" ok "))⟩])) :=
  ⟨by decide,
   C1_success_response_and_history ⟨"f", "k", "mod"⟩ ("\xa0hi ") (some ("s")) ("u")
     (" ok ") [] (by decide)⟩

/-- C2: a request whose `message` field is absent, or is a string that
trims to empty, is rejected with status 400 and body
`{error: "empty message"}`, no provider request is sent, and the session
store is left exactly as it was. -/
theorem C2_empty_or_missing_message_rejected (cfg : Config) (mf : Option JVal)
    (sid? : Option String) (fresh : String) (provider : Except String String)
    (s : Store)
    (hm : mf = none ∨ ∃ m, mf = some (.jstr m) ∧ pyStrip m = "") :
    chat cfg mf sid? fresh provider s = ⟨.badRequest ("empty message"), s, none⟩ ∧
    ((chat cfg mf sid? fresh provider s).result).status = 400 ∧
    (chat cfg mf sid? fresh provider s).sessions = s := by
  rw [chat_empty_shape cfg mf sid? fresh provider s hm]
  exact ⟨rfl, rfl, rfl⟩

/-- Witness for C2: a message of Python-whitespace only (no-break space,
ASCII space, file separator — all stripped by `str.strip()`) against a
store already holding one session, which stays untouched. -/
theorem C2_empty_or_missing_message_rejected_witness :
    (some (JVal.jstr ("\xa0 \x1c")) = none ∨
      ∃ m, some (JVal.jstr ("\xa0 \x1c")) = some (JVal.jstr m) ∧ pyStrip m = "") ∧
    (chat ⟨"f", "k", "mod"⟩ (some (.jstr ("\xa0 \x1c"))) none ("u") (.ok ("r"))
        [(("s"), [⟨"system", SYSTEM_PROMPT⟩])] =
      ⟨.badRequest ("empty message"), [(("s"), [⟨"system", SYSTEM_PROMPT⟩])], none⟩ ∧
    ((chat ⟨"f", "k", "mod"⟩ (some (.jstr ("\xa0 \x1c"))) none ("u") (.ok ("r"))
        [(("s"), [⟨"system", SYSTEM_PROMPT⟩])]).result).status = 400 ∧
    (chat ⟨"f", "k", "mod"⟩ (some (.jstr ("\xa0 \x1c"))) none ("u") (.ok ("r"))
        [(("s"), [⟨"system", SYSTEM_PROMPT⟩])]).sessions =
      [(("s"), [⟨"system", SYSTEM_PROMPT⟩])]) :=
  ⟨Or.inr ⟨("\xa0 \x1c"), rfl, by decide⟩,
   C2_empty_or_missing_message_rejected ⟨"f", "k", "mod"⟩ (some (.jstr ("\xa0 \x1c")))
     none ("u") (.ok ("r")) [(("s"), [⟨"system", SYSTEM_PROMPT⟩])]
     (Or.inr ⟨("\xa0 \x1c"), rfl, by decide⟩)⟩

/-- C3: in every session store reachable from process start, every
registered session's history begins with exactly one system message
whose content is the fixed instruction text (inserted at creation), and
no `POST /chat` operation ever adds a second system message or removes
or alters the first one. -/
theorem C3_history_single_leading_system_message (s : Store) (hs : Reachable s) :
    ∀ id h, storeGet? s id = some h → goodHistory h := by
  induction hs with
  | init =>
    intro id h hget
    simp [storeGet?] at hget
  | step cfg mf sid fresh provider hr ih =>
    intro id h hget
    rcases chat_sessions_shape cfg mf sid fresh provider _ with hcase |
      ⟨id', tail, htail, hEq⟩
    · rw [hcase] at hget
      exact ih id h hget
    · rw [hEq] at hget
      by_cases hid : id = id'
      · subst hid
        rw [storeGet?_storeSet_self] at hget
        injection hget with hget
        subst hget
        rcases hb : storeGet? _ id with _ | h0
        · exact goodHistory_append [⟨"system", SYSTEM_PROMPT⟩] tail
            ⟨[], rfl, by simp⟩ htail
        · exact goodHistory_append h0 tail (ih id h0 hb) htail
      · rw [storeGet?_storeSet_ne _ id' id _ hid] at hget
        exact ih id h hget

/-- Witness for C3: the store after one successful request from the
empty store, whose only session history is well-formed. -/
theorem C3_history_single_leading_system_message_witness :
    goodHistory [⟨"system", SYSTEM_PROMPT⟩, ⟨"user", "hi"⟩, ⟨"assistant", "ok"⟩] :=
  C3_history_single_leading_system_message _
    (Reachable.step ⟨"f", "k", "mod"⟩ (some (.jstr ("hi"))) (some ("s")) ("u")
      (.ok ("ok")) Reachable.init)
    ("s") [⟨"system", SYSTEM_PROMPT⟩, ⟨"user", "hi"⟩, ⟨"assistant", "ok"⟩] rfl

/-- C4 counterexample: on a provider failure the handler's 500 body does
carry the exception message and a fixed `detail`, but that detail is the
Russian remediation constant of line 140, not the English string the
claim quotes. -/
theorem C4_detail_literal_counterexample :
    (chat ⟨"f", "k", "mod"⟩ (some (.jstr ("hi"))) (some ("s")) ("u")
        (.error ("Connection error.")) []).result =
      .serverError ("Connection error.") REMEDIATION_DETAIL ∧
    REMEDIATION_DETAIL ≠ "check provider credentials and configuration" :=
  ⟨by decide, by decide⟩

/-- C4 (amended): every exception raised inside the handler's `try`
block — a provider failure, or the `AttributeError` raised when a
non-string message is stripped (the session store and the sanitizer are
total and raise nothing) — is caught rather than propagated, and is
surfaced as a 500 response `{error: str(e), detail: REMEDIATION_DETAIL}`
where `REMEDIATION_DETAIL` is the fixed remediation constant of line 140
(which the spec renders in English as "check provider credentials and
configuration"). -/
theorem C4_amended_exceptions_caught (cfg : Config) (sid? : Option String)
    (fresh : String) (s : Store) :
    (∀ m e, pyStrip m ≠ "" →
      (chat cfg (some (.jstr m)) sid? fresh (.error e) s).result =
        .serverError e REMEDIATION_DETAIL ∧
      ((chat cfg (some (.jstr m)) sid? fresh (.error e) s).result).status = 500) ∧
    (∀ v provider, (∀ m, v ≠ JVal.jstr m) →
      (chat cfg (some v) sid? fresh provider s).result =
        .serverError ("\x27" ++ v.pyTypeName ++ "\x27 object has no attribute \x27strip\x27")
          REMEDIATION_DETAIL ∧
      ((chat cfg (some v) sid? fresh provider s).result).status = 500) := by
  constructor
  · intro m e hm
    rw [chat_provider_error_shape cfg m sid? fresh e s hm]
    exact ⟨rfl, rfl⟩
  · intro v provider hv
    rw [chat_nonstring_shape cfg v sid? fresh provider s hv]
    exact ⟨rfl, rfl⟩

/-- Witness for C4 (amended): a concrete provider failure yields the 500
body with the fixed detail. -/
theorem C4_amended_exceptions_caught_witness :
    (chat ⟨"f", "k", "mod"⟩ (some (.jstr ("hi"))) (some ("s")) ("u")
        (.error ("boom")) []).result = .serverError ("boom") REMEDIATION_DETAIL ∧
    ((chat ⟨"f", "k", "mod"⟩ (some (.jstr ("hi"))) (some ("s")) ("u")
        (.error ("boom")) []).result).status = 500 :=
  (C4_amended_exceptions_caught ⟨"f", "k", "mod"⟩ (some ("s")) ("u") []).1
    ("hi") ("boom") (by decide)

/-- C5: with a valid non-empty message, the user message is committed to
the session before the provider call (the outbound request exists even
though the provider failed), so a provider failure returns an error
response while the session's history equals its previous history plus
the single dangling user message — it ends in that user message and no
assistant message was appended. -/
theorem C5_provider_failure_leaves_dangling_user (cfg : Config) (m : String)
    (sid? : Option String) (fresh e : String) (s : Store) (hm : pyStrip m ≠ "") :
    (chat cfg (some (.jstr m)) sid? fresh (.error e) s).result =
      .serverError e REMEDIATION_DETAIL ∧
    (chat cfg (some (.jstr m)) sid? fresh (.error e) s).sent =
      some (buildRequest cfg (pyStrip m)) ∧
    storeGet? (chat cfg (some (.jstr m)) sid? fresh (.error e) s).sessions
        (sid?.getD fresh) =
      some (((storeGet? s (sid?.getD fresh)).getD [⟨"system", SYSTEM_PROMPT⟩])
        ++ [⟨"user", pyStrip m⟩]) ∧
    List.getLast?
      (((storeGet? s (sid?.getD fresh)).getD [⟨"system", SYSTEM_PROMPT⟩])
        ++ [⟨"user", pyStrip m⟩]) = some (Message.mk ("user") (pyStrip m)) := by
  rw [chat_provider_error_shape cfg m sid? fresh e s hm]
  refine ⟨rfl, rfl, storeGet?_storeSet_self _ _ _, ?_⟩
  simp

/-- Witness for C5 at a concrete failing call whose message has a
no-break-space fringe (the dangling user content is the Python-stripped
`"hi"`). -/
theorem C5_provider_failure_leaves_dangling_user_witness :
    (chat ⟨"f", "k", "mod"⟩ (some (.jstr ("\xa0hi"))) (some ("s")) ("u")
        (.error ("boom")) []).result = .serverError ("boom") REMEDIATION_DETAIL ∧
    (chat ⟨"f", "k", "mod"⟩ (some (.jstr ("\xa0hi"))) (some ("s")) ("u")
        (.error ("boom")) []).sent =
      some (buildRequest ⟨"f", "k", "mod"⟩ (pyStrip ("\xa0hi"))) ∧
    storeGet? (chat ⟨"f", "k", "mod"⟩ (some (.jstr ("\xa0hi"))) (some ("s")) ("u")
        (.error ("boom")) []).sessions ((some ("s")).getD ("u")) =
      some (((storeGet? ([] : Store) ((some ("s")).getD ("u"))).getD
          [⟨"system", SYSTEM_PROMPT⟩]) ++ [⟨"user", pyStrip ("\xa0hi")⟩]) ∧
    List.getLast?
      (((storeGet? ([] : Store) ((some ("s")).getD ("u"))).getD
        [⟨"system", SYSTEM_PROMPT⟩]) ++ [⟨"user", pyStrip ("\xa0hi")⟩]) =
      some (Message.mk ("user") (pyStrip ("\xa0hi"))) :=
  C5_provider_failure_leaves_dangling_user ⟨"f", "k", "mod"⟩ ("\xa0hi") (some ("s"))
    ("u") ("boom") [] (by decide)

/-- C6: whenever a request reaches the provider call, the outbound
request carries exactly: the model id `gpt://<FOLDER_ID>/<MODEL>` (the
provider-scheme form of the spec), temperature 0.6, maximum output
length 2500, the fixed system instruction as the separate `instructions`
field, and an input of a single user turn holding only the current
trimmed message — never the accumulated session history. -/
theorem C6_provider_request_fields (cfg : Config) (m : String)
    (sid? : Option String) (fresh : String) (provider : Except String String)
    (s : Store) (hm : pyStrip m ≠ "") :
    ∃ req, (chat cfg (some (.jstr m)) sid? fresh provider s).sent = some req ∧
      req.model = "gpt://" ++ cfg.FOLDER_ID ++ "/" ++ cfg.MODEL ∧
      req.temperature = 0.6 ∧
      req.max_output_tokens = 2500 ∧
      req.instructions = SYSTEM_PROMPT ∧
      req.input = [⟨"user", pyStrip m⟩] := by
  rcases provider with e | out
  · rw [chat_provider_error_shape cfg m sid? fresh e s hm]
    exact ⟨buildRequest cfg (pyStrip m), rfl, rfl, rfl, rfl, rfl, rfl⟩
  · rw [chat_ok_shape cfg m sid? fresh out s hm]
    exact ⟨buildRequest cfg (pyStrip m), rfl, rfl, rfl, rfl, rfl, rfl⟩

/-- Witness for C6 at a concrete call whose message has a no-break-space
fringe (the single outbound user turn carries the Python-stripped
`"hi"`). -/
theorem C6_provider_request_fields_witness :
    ∃ req, (chat ⟨"f", "k", "mod"⟩ (some (.jstr ("\xa0hi"))) (some ("s")) ("u")
        (.ok ("r")) []).sent = some req ∧
      req.model = "gpt://" ++ ("f" : String) ++ "/" ++ ("mod" : String) ∧
      req.temperature = 0.6 ∧
      req.max_output_tokens = 2500 ∧
      req.instructions = SYSTEM_PROMPT ∧
      req.input = [⟨"user", pyStrip ("\xa0hi")⟩] :=
  C6_provider_request_fields ⟨"f", "k", "mod"⟩ ("\xa0hi") (some ("s")) ("u")
    (.ok ("r")) [] (by decide)

/-- C8 counterexample: sanitization is not idempotent — on
`"- - item"` one pass strips a single leading bullet token leaving
`"- item"`, and a second pass strips again, so the two sides differ. -/
theorem C8_idempotent_counterexample :
    clean_ai_response ("- - item") = "- item" ∧
    clean_ai_response (clean_ai_response ("- - item")) = "item" ∧
    clean_ai_response (clean_ai_response ("- - item")) ≠
      clean_ai_response ("- - item") :=
  ⟨by decide, by decide, by decide⟩

/-- C8 (amended): sanitization is idempotent on the spec's tested
inputs — the three documented examples and the empty string — though not
for every string. -/
theorem C8_amended_idempotent_on_documented_inputs :
    clean_ai_response (clean_ai_response ("**bold** and *italic* and `code`")) =
      clean_ai_response ("**bold** and *italic* and `code`") ∧
    clean_ai_response (clean_ai_response ("# Heading\n- item one\n- item two")) =
      clean_ai_response ("# Heading\n- item one\n- item two") ∧
    clean_ai_response (clean_ai_response ("Great 🔧 fix")) =
      clean_ai_response ("Great 🔧 fix") ∧
    clean_ai_response (clean_ai_response ("")) = clean_ai_response ("") :=
  ⟨by decide, by decide, by decide, by decide⟩

/-- C9: the sanitizer meets the spec's concrete examples: markup
stripping of bold/italic/inline-code, heading and bullet removal, and
emoji pass-through. -/
theorem C9_sanitize_documented_examples :
    clean_ai_response ("**bold** and *italic* and `code`") =
      "bold and italic and code" ∧
    clean_ai_response ("# Heading\n- item one\n- item two") =
      "Heading\nitem one\nitem two" ∧
    clean_ai_response ("Great 🔧 fix") = "Great 🔧 fix" :=
  ⟨by decide, by decide, by decide⟩

/-- C10: a non-string `message` value (a JSON number or object) is never
type-checked; `.strip()` raises `AttributeError`, which the catch-all
branch turns into a 500 response — not the 400 validation response. -/
theorem C10_nonstring_message_hits_catch_all (cfg : Config) (sid? : Option String)
    (fresh : String) (provider : Except String String) (s : Store) (n : Int) :
    (chat cfg (some (.jnum n)) sid? fresh provider s).result =
      .serverError ("\x27int\x27 object has no attribute \x27strip\x27")
        REMEDIATION_DETAIL ∧
    (chat cfg (some (.jobj)) sid? fresh provider s).result =
      .serverError ("\x27dict\x27 object has no attribute \x27strip\x27")
        REMEDIATION_DETAIL ∧
    ((chat cfg (some (.jnum n)) sid? fresh provider s).result).status = 500 ∧
    ((chat cfg (some (.jobj)) sid? fresh provider s).result).status = 500 ∧
    (∀ err, (chat cfg (some (.jnum n)) sid? fresh provider s).result ≠
      .badRequest err) ∧
    (∀ err, (chat cfg (some (.jobj)) sid? fresh provider s).result ≠
      .badRequest err) := by
  rw [chat_nonstring_shape cfg (.jnum n) sid? fresh provider s (by intro m h; cases h),
    chat_nonstring_shape cfg .jobj sid? fresh provider s (by intro m h; cases h)]
  refine ⟨rfl, rfl, rfl, rfl, ?_, ?_⟩ <;> intro err h <;> cases h

/-! ## Pipeline stages are the identity on text without their trigger
characters (used to settle the separator-removal claim) -/

theorem subPair1Aux_id (d : Char) :
    ∀ l : List Char, (∀ c ∈ l, c ≠ d) → subPair1Aux d none l = l
  | [], _ => rfl
  | c :: rest, hd => by
    have hc : c ≠ d := hd c (List.mem_cons_self c rest)
    simp only [subPair1Aux, if_neg hc]
    exact congrArg (List.cons c)
      (subPair1Aux_id d rest (fun x hx => hd x (List.mem_cons_of_mem c hx)))

theorem subPair2Aux_id (d : Char) :
    ∀ l : List Char, (∀ c ∈ l, c ≠ d) → subPair2Aux d none l = l
  | [], _ => rfl
  | [_], _ => rfl
  | c1 :: c2 :: rest, hd => by
    have hc : c1 ≠ d := hd c1 (List.mem_cons_self c1 (c2 :: rest))
    have hp : ¬ (c1 = d ∧ c2 = d) := fun h => hc h.1
    simp only [subPair2Aux, if_neg hp]
    exact congrArg (List.cons c1)
      (subPair2Aux_id d (c2 :: rest) (fun x hx => hd x (List.mem_cons_of_mem c1 hx)))

theorem subHeadAux_id (b : Bool) :
    ∀ l : List Char, (∀ c ∈ l, c ≠ '#') → subHeadAux (.scan b) l = l
  | [], _ => by cases b <;> rfl
  | c :: rest, hd => by
    have hc : c ≠ '#' := hd c (List.mem_cons_self c rest)
    have ih := subHeadAux_id (c = '\n') rest (fun x hx => hd x (List.mem_cons_of_mem c hx))
    cases b with
    | true =>
      simp only [subHeadAux, if_neg hc]
      exact congrArg (List.cons c) ih
    | false =>
      simp only [subHeadAux]
      exact congrArg (List.cons c) ih

theorem subQuoteAux_id (b : Bool) :
    ∀ l : List Char, (∀ c ∈ l, c ≠ '>') → subQuoteAux (.scan b) l = l
  | [], _ => by cases b <;> rfl
  | c :: rest, hd => by
    have hc : c ≠ '>' := hd c (List.mem_cons_self c rest)
    have ih := subQuoteAux_id (c = '\n') rest (fun x hx => hd x (List.mem_cons_of_mem c hx))
    cases b with
    | true =>
      simp only [subQuoteAux, if_neg hc]
      exact congrArg (List.cons c) ih
    | false =>
      simp only [subQuoteAux]
      exact congrArg (List.cons c) ih

theorem subBulletAux_id (b : Bool) :
    ∀ l : List Char, (∀ c ∈ l, isPySpace c = false ∧ isBullet c = false) →
      subBulletAux (.scan b) l = l
  | [], _ => by cases b <;> rfl
  | c :: rest, hd => by
    obtain ⟨h1, h2⟩ := hd c (List.mem_cons_self c rest)
    have ih := subBulletAux_id (c = '\n') rest (fun x hx => hd x (List.mem_cons_of_mem c hx))
    cases b with
    | true =>
      simp only [subBulletAux, h1, h2, Bool.false_eq_true, if_false]
      exact congrArg (List.cons c) ih
    | false =>
      simp only [subBulletAux]
      exact congrArg (List.cons c) ih

theorem subOrderedAux_id (b : Bool) :
    ∀ l : List Char, (∀ c ∈ l, isPySpace c = false ∧ isPyDigit c = false) →
      subOrderedAux (.scan b) l = l
  | [], _ => by cases b <;> rfl
  | c :: rest, hd => by
    obtain ⟨h1, h2⟩ := hd c (List.mem_cons_self c rest)
    have ih := subOrderedAux_id (c = '\n') rest (fun x hx => hd x (List.mem_cons_of_mem c hx))
    cases b with
    | true =>
      simp only [subOrderedAux, h1, h2, Bool.false_eq_true, if_false]
      exact congrArg (List.cons c) ih
    | false =>
      simp only [subOrderedAux]
      exact congrArg (List.cons c) ih

theorem subBlankAux_id :
    ∀ l : List Char, (∀ c ∈ l, isPySpace c = false) → subBlankAux [] l = l
  | [], _ => rfl
  | c :: rest, hd => by
    have h1 : isPySpace c = false := hd c (List.mem_cons_self c rest)
    have ih := subBlankAux_id rest (fun x hx => hd x (List.mem_cons_of_mem c hx))
    simp only [subBlankAux, h1, Bool.false_eq_true, if_false]
    simp only [List.reverse_nil, collapseRun, List.filter_nil, List.length_nil]
    simp only [show ¬ (3 ≤ 0) by omega, if_false, List.nil_append]
    exact congrArg (List.cons c) ih

theorem subHorizAux_id :
    ∀ l : List Char, (∀ c ∈ l, ¬ (c = ' ' ∨ c = '\t')) → subHorizAux false l = l
  | [], _ => rfl
  | c :: rest, hd => by
    have h1 : ¬ (c = ' ' ∨ c = '\t') := hd c (List.mem_cons_self c rest)
    have ih := subHorizAux_id rest (fun x hx => hd x (List.mem_cons_of_mem c hx))
    simp only [subHorizAux, if_neg h1]
    exact congrArg (List.cons c) ih

theorem dropWhile_of_head (p : Char → Bool) :
    ∀ l : List Char, (∀ c ∈ l, p c = false) → l.dropWhile p = l
  | [], _ => rfl
  | c :: rest, hd => by
    simp [List.dropWhile_cons, hd c (List.mem_cons_self c rest)]

theorem stripList_id (l : List Char) (hd : ∀ c ∈ l, isPySpace c = false) :
    stripList l = l := by
  unfold stripList
  rw [dropWhile_of_head _ l hd,
    dropWhile_of_head _ l.reverse (fun c hc => hd c (List.mem_reverse.mp hc)),
    List.reverse_reverse]

theorem flushRun_zero (d : Char) (n : Nat) : flushRun d n 0 = [] := by
  unfold flushRun
  by_cases h : n ≤ 0 <;> simp [h]

theorem subRunAux_replicate (d : Char) (n : Nat) :
    ∀ (j cnt : Nat) (rest : List Char),
      subRunAux d n cnt (List.replicate j d ++ rest) = subRunAux d n (cnt + j) rest
  | 0, cnt, rest => by simp
  | j + 1, cnt, rest => by
    have h1 : List.replicate (j + 1) d ++ rest = d :: (List.replicate j d ++ rest) := by
      simp [List.replicate_succ]
    have h2 : subRunAux d n cnt (d :: (List.replicate j d ++ rest)) =
        subRunAux d n (cnt + 1) (List.replicate j d ++ rest) := by
      simp [subRunAux]
    rw [h1, h2, subRunAux_replicate d n j (cnt + 1) rest]
    congr 1
    omega

theorem subRunAux_append_no (d : Char) (n : Nat) :
    ∀ (l1 l2 : List Char), (∀ c ∈ l1, c ≠ d) →
      subRunAux d n 0 (l1 ++ l2) = l1 ++ subRunAux d n 0 l2
  | [], l2, _ => by simp
  | c :: l1, l2, hd => by
    have hc : c ≠ d := hd c (List.mem_cons_self c l1)
    simp only [List.cons_append, subRunAux, if_neg hc, flushRun_zero, List.nil_append]
    exact congrArg (List.cons c)
      (subRunAux_append_no d n l1 l2 (fun x hx => hd x (List.mem_cons_of_mem c hx)))

theorem subRunAux_id (d : Char) (n : Nat) (l : List Char) (hd : ∀ c ∈ l, c ≠ d) :
    subRunAux d n 0 l = l := by
  have := subRunAux_append_no d n l [] hd
  simpa [subRunAux, flushRun_zero] using this

/-- Evaluation of the three separator substitutions (lines 71-73) on a
text holding a box-drawing dash run of length `k ≥ 2` and a double-line
run of length `mm ≥ 3`: both runs disappear. -/
theorem removeSeparators_boxruns (k mm : Nat) (hk : 2 ≤ k) (hm : 3 ≤ mm) :
    removeSeparators ('x' :: (List.replicate k '─' ++ 'y' ::
      (List.replicate mm '═' ++ ['z']))) = ['x', 'y', 'z'] := by
  have hz1 : ∀ c ∈ List.replicate mm '═' ++ ['z'], c ≠ '─' := by
    intro c hc
    rcases List.mem_append.mp hc with hc | hc
    · rw [(List.mem_replicate.mp hc).2]; decide
    · simp at hc; subst hc; decide
  have step1 : subRun '─' 3 ('x' :: (List.replicate k '─' ++ 'y' ::
      (List.replicate mm '═' ++ ['z']))) =
      'x' :: (flushRun '─' 3 k ++ 'y' :: (List.replicate mm '═' ++ ['z'])) := by
    show subRunAux '─' 3 0 _ = _
    simp only [subRunAux, show ¬ ('x' = '─') by decide, if_false, flushRun_zero,
      List.nil_append]
    rw [subRunAux_replicate '─' 3 k 0 _]
    simp only [Nat.zero_add, subRunAux, show ¬ ('y' = '─') by decide, if_false]
    rw [subRunAux_id '─' 3 _ hz1]
  by_cases h3 : 3 ≤ k
  · have hf : flushRun '─' 3 k = [] := by simp [flushRun, h3]
    have step2 : subRun '═' 3 ('x' :: ('y' :: (List.replicate mm '═' ++ ['z']))) =
        ['x', 'y', 'z'] := by
      show subRunAux '═' 3 0 _ = _
      simp only [subRunAux, show ¬ ('x' = '═') by decide,
        show ¬ ('y' = '═') by decide, if_false, flushRun_zero, List.nil_append]
      rw [subRunAux_replicate '═' 3 mm 0 _]
      simp only [Nat.zero_add, subRunAux, show ¬ ('z' = '═') by decide, if_false]
      simp [flushRun, hm, flushRun_zero]
    unfold removeSeparators
    rw [step1, hf, List.nil_append, step2]
    exact subRunAux_id '─' 2 _ (by decide)
  · have hf : flushRun '─' 3 k = List.replicate k '─' := by simp [flushRun, h3]
    have step2 : subRun '═' 3 ('x' :: (List.replicate k '─' ++ 'y' ::
        (List.replicate mm '═' ++ ['z']))) =
        'x' :: (List.replicate k '─' ++ ['y', 'z']) := by
      show subRunAux '═' 3 0 _ = _
      simp only [subRunAux, show ¬ ('x' = '═') by decide, if_false, flushRun_zero,
        List.nil_append]
      rw [subRunAux_append_no '═' 3 (List.replicate k '─') _
        (fun c hc => by rw [(List.mem_replicate.mp hc).2]; decide)]
      simp only [subRunAux, show ¬ ('y' = '═') by decide, if_false, flushRun_zero,
        List.nil_append]
      rw [subRunAux_replicate '═' 3 mm 0 _]
      simp only [Nat.zero_add, subRunAux, show ¬ ('z' = '═') by decide, if_false]
      simp [flushRun, hm, flushRun_zero]
    have step3 : subRun '─' 2 ('x' :: (List.replicate k '─' ++ ['y', 'z'])) =
        ['x', 'y', 'z'] := by
      show subRunAux '─' 2 0 _ = _
      simp only [subRunAux, show ¬ ('x' = '─') by decide, if_false, flushRun_zero,
        List.nil_append]
      rw [subRunAux_replicate '─' 2 k 0 _]
      simp only [Nat.zero_add, subRunAux, show ¬ ('y' = '─') by decide,
        show ¬ ('z' = '─') by decide, if_false]
      simp [flushRun, hk, flushRun_zero]
    unfold removeSeparators
    rw [step1, hf, step2, step3]

/-- C7 counterexample: a run of two plain ASCII dashes used as a
separator line passes through sanitization untouched — the third
substitution of line 73 repeats the box-drawing dash `─`, not the ASCII
hyphen, so no rule ever removes plain dashes. -/
theorem C7_plain_dash_counterexample :
    clean_ai_response ("x\n--\ny") = "x\n--\ny" ∧
    clean_ai_response ("x\n--\ny") ≠ "x\n\ny" :=
  ⟨by decide, by decide⟩

/-- C7 (amended): sanitization removes horizontal-rule-like runs of
3-or-more box-drawing dash (`─`) or double-line (`═`) characters, and
also runs of 2-or-more box-drawing dash characters; runs of plain ASCII
dashes are not removed (line 73 repeats `─`, not `-`). -/
theorem C7_amended_separator_runs (k mm : Nat) (hk : 2 ≤ k) (hm : 3 ≤ mm) :
    clean_ai_response (String.mk ('x' :: (List.replicate k '─' ++ 'y' ::
      (List.replicate mm '═' ++ ['z'])))) = "xyz" ∧
    clean_ai_response ("x\n--\ny") = "x\n--\ny" := by
  refine ⟨?_, by decide⟩
  have hmem : ∀ c ∈ ('x' :: (List.replicate k '─' ++ 'y' ::
      (List.replicate mm '═' ++ ['z']))),
      c = 'x' ∨ c = '─' ∨ c = 'y' ∨ c = '═' ∨ c = 'z' := by
    intro c hc
    simp only [List.mem_cons, List.mem_append, List.mem_replicate] at hc
    tauto
  have hne : String.mk ('x' :: (List.replicate k '─' ++ 'y' ::
      (List.replicate mm '═' ++ ['z']))) ≠ "" := by
    intro h
    exact absurd (congrArg String.data h) (by simp)
  unfold clean_ai_response
  rw [if_neg hne]
  show String.mk (stripList (subHoriz (subBlank (removeSeparators (subOrdered
    (subBullet (subQuote (subHeading (subPair2 '~' (subPair1 '`' (subPair1 '_'
    (subPair1 '*' (subPair2 '*' ('x' :: (List.replicate k '─' ++ 'y' ::
      (List.replicate mm '═' ++ ['z'])))))))))))))))) = "xyz"
  rw [show subPair2 '*' _ = _ from subPair2Aux_id '*' _
      (fun c hc => by rcases hmem c hc with rfl | rfl | rfl | rfl | rfl <;> decide),
    show subPair1 '*' _ = _ from subPair1Aux_id '*' _
      (fun c hc => by rcases hmem c hc with rfl | rfl | rfl | rfl | rfl <;> decide),
    show subPair1 '_' _ = _ from subPair1Aux_id '_' _
      (fun c hc => by rcases hmem c hc with rfl | rfl | rfl | rfl | rfl <;> decide),
    show subPair1 '`' _ = _ from subPair1Aux_id '`' _
      (fun c hc => by rcases hmem c hc with rfl | rfl | rfl | rfl | rfl <;> decide),
    show subPair2 '~' _ = _ from subPair2Aux_id '~' _
      (fun c hc => by rcases hmem c hc with rfl | rfl | rfl | rfl | rfl <;> decide),
    show subHeading _ = _ from subHeadAux_id true _
      (fun c hc => by rcases hmem c hc with rfl | rfl | rfl | rfl | rfl <;> decide),
    show subQuote _ = _ from subQuoteAux_id true _
      (fun c hc => by rcases hmem c hc with rfl | rfl | rfl | rfl | rfl <;> decide),
    show subBullet _ = _ from subBulletAux_id true _
      (fun c hc => by rcases hmem c hc with rfl | rfl | rfl | rfl | rfl <;> decide),
    show subOrdered _ = _ from subOrderedAux_id true _
      (fun c hc => by rcases hmem c hc with rfl | rfl | rfl | rfl | rfl <;> decide),
    removeSeparators_boxruns k mm hk hm,
    show subBlank ['x', 'y', 'z'] = ['x', 'y', 'z'] from subBlankAux_id _ (by decide),
    show subHoriz ['x', 'y', 'z'] = ['x', 'y', 'z'] from subHorizAux_id _ (by decide),
    stripList_id ['x', 'y', 'z'] (by decide)]

/-- Witness for C7 (amended) at the boundary lengths `k = 2`, `mm = 3`. -/
theorem C7_amended_separator_runs_witness :
    (2 ≤ 2 ∧ 3 ≤ 3) ∧
    (clean_ai_response (String.mk ('x' :: (List.replicate 2 '─' ++ 'y' ::
      (List.replicate 3 '═' ++ ['z'])))) = "xyz" ∧
    clean_ai_response ("x\n--\ny") = "x\n--\ny") :=
  ⟨⟨by decide, by decide⟩,
   C7_amended_separator_runs 2 3 (by decide) (by decide)⟩

end MadiParts
